import Mathlib

/-!
Verification of the telemetry-to-trajectory core of the mpu6050-flight
repository: the frame parser (`helpers.parse_telemetry_human`), the
dead-reckoning integrator (`helpers.compute_position_from_telemetry`) and
the bounded trajectory store / render adapter embedded in
`draw_flight_path.FlightPathVisualizer.update`.

Numeric values carried by telemetry frames are embedded as rationals (the
concrete literals appearing in the telemetry lines are finite decimals);
the integrator's trigonometric arithmetic is embedded over the reals.
Python-builtin behaviours the source relies on (`str.split`, `str.strip`,
`float(...)`, `dict` insertion, `deque(maxlen=...)`, exceptions) are
modelled explicitly below, each next to the definition that uses it.
-/

namespace Mpu6050

/-- Model of Python `str.split(sep)` for a one-character separator:
splits on every occurrence, keeps empty fields, and yields `[[]]` on the
empty string (Python: `"".split('|') == ['']`). -/
def pySplit (sep : Char) : List Char → List (List Char)
  | [] => [[]]
  | c :: cs =>
    if c = sep then [] :: pySplit sep cs
    else
      match pySplit sep cs with
      | [] => [[c]]
      | h :: t => (c :: h) :: t

/-- ASCII whitespace recognised by Python `str.strip()`. -/
def isPySpace (c : Char) : Bool :=
  c = ' ' || c = '\t' || c = '\n' || c = '\r' || c = '\x0b' || c = '\x0c'

/-- Model of Python `str.strip()`: remove whitespace from both ends. -/
def pyStrip (cs : List Char) : List Char :=
  ((cs.dropWhile isPySpace).reverse.dropWhile isPySpace).reverse

/-- Value of a digit run read in base 10. -/
def digitsVal (ds : List Char) : ℕ :=
  ds.foldl (fun a c => 10 * a + (c.toNat - 48)) 0

/-- Split off a leading run of decimal digits (the digit-scanning step of
float parsing). -/
def readDigits : List Char → List Char × List Char
  | [] => ([], [])
  | c :: cs =>
    if c.isDigit then
      let r := readDigits cs
      (c :: r.1, r.2)
    else ([], c :: cs)

/-- Numeric value of a float literal read as integer-part digits `ip`,
fraction digits `fp` and decimal exponent `e`:
`(ip + fp·10^-|fp|)·10^e`. -/
def ratVal (ip fp : List Char) (e : ℤ) : ℚ :=
  ((digitsVal ip : ℚ) + (digitsVal fp : ℚ) / (10 : ℚ) ^ fp.length) * (10 : ℚ) ^ e

/-- Mantissa-and-exponent part of a Python float literal, after an optional
leading sign has been removed: `digits [. digits] [(e|E) [sign] digits]`,
with at least one mantissa digit required.  This models `float(str)` on
finite decimal literals (the special tokens `inf`/`nan` and digit
underscores, which no telemetry line in this system uses, are outside the
model). -/
def pyFloatCore (cs : List Char) : Option ℚ :=
  let ipr := readDigits cs
  let fpr :=
    match ipr.2 with
    | '.' :: t => readDigits t
    | r => (([] : List Char), r)
  if ipr.1 = [] ∧ fpr.1 = [] then none
  else
    match fpr.2 with
    | [] => some (ratVal ipr.1 fpr.1 0)
    | c :: t =>
      if c = 'e' ∨ c = 'E' then
        let espr : ℤ × List Char :=
          match t with
          | '+' :: u => (1, u)
          | '-' :: u => (-1, u)
          | u => (1, u)
        let edr := readDigits espr.2
        if edr.1 = [] ∨ edr.2 ≠ [] then none
        else some (ratVal ipr.1 fpr.1 (espr.1 * (digitsVal edr.1 : ℤ)))
      else none

/-- Model of Python `float(str)` on an already-stripped string: optional
sign, then `pyFloatCore`.  Returns `none` where `float(...)` raises
`ValueError`. -/
def pyFloat? (cs : List Char) : Option ℚ :=
  match cs with
  | '+' :: t => pyFloatCore t
  | '-' :: t => (pyFloatCore t).map (fun q => -q)
  | t => pyFloatCore t

/-- The key list `helpers.TELEMETRY_KEYS`. -/
def TELEMETRY_KEYS : List String :=
  ["time", "roll", "pitch", "yaw",
   "roll_rate", "pitch_rate", "yaw_rate",
   "accel_x", "accel_y", "accel_z", "mode"]

/-- The Python exceptions that can escape the loop body of
`parse_telemetry_human`: `TELEMETRY_KEYS[i]` out of range, or `float(value)`
on a non-numeric string. -/
inductive PyExc
  | indexError
  | valueError
deriving DecidableEq

deriving instance DecidableEq for Except

/-- A value stored in the `data` dict: a float or the mode string. -/
inductive FieldVal
  | num (q : ℚ)
  | str (s : String)
deriving DecidableEq

/-- One iteration of the loop in `parse_telemetry_human`:
`key = TELEMETRY_KEYS[i]` (IndexError if `i ≥ 11`), `value = part.strip()`,
then `data[key] = cast_type(value) if value else (0.0 if cast_type == float
else "")` where `cast_type` is `float` for every key but `"mode"` and `str`
for `"mode"` (for the mode, `str(value) = value` and the empty default `""`
equals the empty `value`, so the entry is `value` either way). -/
def pyDataEntry (i : ℕ) (part : List Char) : Except PyExc (String × FieldVal) :=
  match TELEMETRY_KEYS.get? i with
  | none => .error .indexError
  | some key =>
    let value := pyStrip part
    if key ≠ "mode" then
      if value = [] then .ok (key, .num 0)
      else
        match pyFloat? value with
        | some q => .ok (key, .num q)
        | none => .error .valueError
    else .ok (key, .str (String.mk value))

/-- The `for i, part in enumerate(parts)` loop of `parse_telemetry_human`,
building the `data` dict in insertion order (keys are pairwise distinct,
so the dict is exactly this association list); the first exception raised
aborts the loop. -/
def pyData : List (List Char) → ℕ → Except PyExc (List (String × FieldVal))
  | [], _ => .ok []
  | p :: ps, i =>
    match pyDataEntry i p with
    | .error e => .error e
    | .ok en =>
      match pyData ps (i + 1) with
      | .error e => .error e
      | .ok rest => .ok (en :: rest)

/-- The TelemetryFrame: the structured view of a successfully parsed `data`
dict (all eleven keys present, fields 0-9 numeric, field 10 the mode). -/
structure Frame where
  time : ℚ
  roll : ℚ
  pitch : ℚ
  yaw : ℚ
  roll_rate : ℚ
  pitch_rate : ℚ
  yaw_rate : ℚ
  accel_x : ℚ
  accel_y : ℚ
  accel_z : ℚ
  mode : String
deriving DecidableEq

/-- Read a full eleven-entry `data` dict back as a `Frame`; the entries of
a complete parse are ten numeric values followed by the mode string, in
`TELEMETRY_KEYS` order. -/
def frameOfData : List (String × FieldVal) → Option Frame
  | [(_, .num t), (_, .num r), (_, .num p), (_, .num y),
     (_, .num rr), (_, .num pr), (_, .num yr),
     (_, .num ax), (_, .num ay), (_, .num az), (_, .str m)] =>
    some ⟨t, r, p, y, rr, pr, yr, ax, ay, az, m⟩
  | _ => none

/-- The parser `helpers.parse_telemetry_human`: split the line on `'|'`, run the
dict-building loop (any exception is caught and yields `None`), then
`return data if len(data) == len(TELEMETRY_KEYS) else None`. -/
def parse_telemetry_human (line : String) : Option Frame :=
  match pyData (pySplit '|' line.data) 0 with
  | .error _ => none
  | .ok data =>
    if data.length = TELEMETRY_KEYS.length then frameOfData data else none

/-! ## Dead-reckoning integrator (`helpers.compute_position_from_telemetry`) -/

/-- Model of `np.radians`: degrees to radians. -/
noncomputable def radians (x : ℝ) : ℝ := x * Real.pi / 180

/-- The integrator `helpers.compute_position_from_telemetry`: direction vector from pitch
and yaw (roll is converted but unused), position advanced by `dt` (default
`0.05` when `dt is None`), and the direction vector returned as the new
velocity.  Telemetry fields are the parsed rationals, cast into ℝ. -/
noncomputable def compute_position_from_telemetry (telemetry : Frame)
    (prev_position : ℝ × ℝ × ℝ) (prev_velocity : ℝ × ℝ × ℝ)
    (constant_speed : ℝ) (dt? : Option ℝ) : (ℝ × ℝ × ℝ) × (ℝ × ℝ × ℝ) :=
  let roll := radians (telemetry.roll : ℝ)
  let pitch := radians (telemetry.pitch : ℝ)
  let yaw := radians (telemetry.yaw : ℝ)
  let dx := constant_speed * Real.cos pitch * Real.cos yaw
  let dy := constant_speed * Real.cos pitch * Real.sin yaw
  let dz := constant_speed * Real.sin pitch
  let dt := dt?.getD (1 / 20)
  let new_x := prev_position.1 + dx * dt
  let new_y := prev_position.2.1 + dy * dt
  let new_z := prev_position.2.2 + dz * dt
  ((new_x, new_y, new_z), (dx, dy, dz))

/-! ## Bounded trajectory store (deques of `FlightPathVisualizer`) -/

/-- One `append` on a Python `deque(maxlen=m)`: the new element goes on the
right and the leftmost element is discarded if the length would exceed
`m`. -/
def dequeApp (m : ℕ) (d : List α) (x : α) : List α :=
  let grown := d ++ [x]
  grown.drop (grown.length - m)

/-- The sliding-window data of `FlightPathVisualizer`: the four deques
created with `maxlen=max_points` plus the running `frame_count` used as
the sequence number of the next point. -/
structure TrajStore where
  max_points : ℕ
  x_data : List ℝ
  y_data : List ℝ
  z_data : List ℝ
  timestamps : List ℕ
  frame_count : ℕ

/-- The freshly constructed store of `FlightPathVisualizer.__init__`. -/
def TrajStore.empty (m : ℕ) : TrajStore :=
  ⟨m, [], [], [], [], 0⟩

/-- Lines 98-102 of `draw_flight_path.py`: append the new point's
coordinates and the current `frame_count` to the deques, then increment
`frame_count`. -/
def TrajStore.push (s : TrajStore) (p : ℝ × ℝ × ℝ) : TrajStore :=
  { s with
    x_data := dequeApp s.max_points s.x_data p.1
    y_data := dequeApp s.max_points s.y_data p.2.1
    z_data := dequeApp s.max_points s.z_data p.2.2
    timestamps := dequeApp s.max_points s.timestamps s.frame_count
    frame_count := s.frame_count + 1 }

/-- Push a whole list of points, oldest first. -/
def pushAll (s : TrajStore) (ps : List (ℝ × ℝ × ℝ)) : TrajStore :=
  ps.foldl TrajStore.push s

/-! ## Render adapter (lines 108-144 of `draw_flight_path.py`) -/

/-- Model of `np.min` over the timestamp window (`0` only for the empty window,
which the `len(self.x_data) > 0` guard excludes). -/
def seqMin : List ℕ → ℕ
  | [] => 0
  | h :: t => t.foldl Nat.min h

/-- Model of `np.max` over the timestamp window. -/
def seqMax : List ℕ → ℕ
  | [] => 0
  | h :: t => t.foldl Nat.max h

/-- Lines 111-115: normalise the timestamps to `[0,1]` colour weights when
there is more than one point, else a single weight `0.0`. -/
def normWeights (ts : List ℕ) : List ℚ :=
  if 1 < ts.length then
    ts.map (fun s : ℕ => ((s : ℚ) - (seqMin ts : ℚ)) / ((seqMax ts : ℚ) - (seqMin ts : ℚ)))
  else [0]

/-- Lines 118-121: the RGBA rows of `color_array` — red channel is the
weight, green `0`, blue `1 - weight`, alpha `1`. -/
def colorArray (ws : List ℚ) : List (ℚ × ℚ × ℚ × ℚ) :=
  ws.map (fun w => (w, 0, 1 - w, 1))

/-- Colours assigned to a snapshot of the timestamp window. -/
def renderColors (ts : List ℕ) : List (ℚ × ℚ × ℚ × ℚ) :=
  colorArray (normWeights ts)

/-- Model of `np.min` over a coordinate window (reals). -/
noncomputable def listMinR : List ℝ → ℝ
  | [] => 0
  | h :: t => t.foldl min h

/-- Model of `np.max` over a coordinate window (reals). -/
noncomputable def listMaxR : List ℝ → ℝ
  | [] => 0
  | h :: t => t.foldl max h

/-- The `(min, max)` pair of each coordinate window — the store-side extent of the
current points (the `x_arr.min()/x_arr.max()` pairs of lines 138-144). -/
noncomputable def axis_bounds (s : TrajStore) : (ℝ × ℝ) × (ℝ × ℝ) × (ℝ × ℝ) :=
  ((listMinR s.x_data, listMaxR s.x_data),
   (listMinR s.y_data, listMaxR s.y_data),
   (listMinR s.z_data, listMaxR s.z_data))

/-- Line 138: `(arr.max() - arr.min()) * 0.1 or 1` — Python `or` falls back
to `1` exactly when the padding expression is zero. -/
noncomputable def padOf (mn mx : ℝ) : ℝ :=
  if (mx - mn) * (1 / 10) = 0 then 1 else (mx - mn) * (1 / 10)

/-- Lines 142-144: the display limits for one axis, `(min - padding,
max + padding)` — padding applied on the render side, not stored. -/
noncomputable def limsOf (b : ℝ × ℝ) : ℝ × ℝ :=
  (b.1 - padOf b.1 b.2, b.2 + padOf b.1 b.2)

/-! ## The tick pipeline (`FlightPathVisualizer.update`) -/

/-- Line 83 of `draw_flight_path.py`:
`dt = (current_time - self.last_time) if self.last_time else 0.05`.
Python truthiness: the fallback `0.05` is taken both when `last_time` is
`None` and when it is `0.0`. -/
def computeDt (last_time : Option ℚ) (current_time : ℚ) : ℚ :=
  match last_time with
  | none => 1 / 20
  | some lt => if lt = 0 then 1 / 20 else current_time - lt

/-- The mutable per-session fields of `FlightPathVisualizer` touched by
`update`: kinematic state plus the sliding-window store. -/
structure VizState where
  constant_speed : ℝ
  position : ℝ × ℝ × ℝ
  velocity : ℝ × ℝ × ℝ
  last_time : Option ℚ
  store : TrajStore

/-- The state built by `__init__` with the default configuration
(`max_points=1000`, `constant_speed=1.0`): origin position and velocity,
no prior timestamp, empty deques. -/
noncomputable def initState : VizState :=
  ⟨1, (0, 0, 0), (0, 0, 0), none, TrajStore.empty 1000⟩

/-- The update function `FlightPathVisualizer.update`, state part.  A falsy packet (no serial
data, or a line the parser rejected) leaves every field untouched;
otherwise `dt` is computed from the timestamps, the integrator advances
position and velocity, `last_time` is set to the frame time, and the new
position is pushed into the deques.  The scatter-plot and axis-limit calls
of lines 104-148 only drive the display and touch none of these fields. -/
noncomputable def update (s : VizState) (packet : Option Frame) : VizState :=
  match packet with
  | none => s
  | some f =>
    let current_time := f.time
    let dt := computeDt s.last_time current_time
    let pv := compute_position_from_telemetry f s.position s.velocity
      s.constant_speed (some (dt : ℝ))
    { s with
      last_time := some current_time
      position := pv.1
      velocity := pv.2
      store := s.store.push pv.1 }

/-- One animation tick: read a line from the transport (`none` when no data
is buffered), parse it (`read_serial_data` turns parse failures and read
errors into a falsy packet), and run `update`. -/
noncomputable def tick (s : VizState) (line? : Option String) : VizState :=
  update s (line?.bind parse_telemetry_human)

/-! ## Spec-level characterisations used in theorem statements -/

/-- A raw field that the numeric branch of the parser accepts: after
trimming it is empty (defaulted to `0.0`) or a parseable float literal. -/
def goodField (p : List Char) : Prop :=
  pyStrip p = [] ∨ (pyFloat? (pyStrip p)).isSome

instance (p : List Char) : Decidable (goodField p) := by
  unfold goodField
  infer_instance

/-- The numeric value the parser stores for a raw field: `0` for an empty
trimmed field, otherwise its float value. -/
def numOf (p : List Char) : ℚ :=
  if pyStrip p = [] then 0 else (pyFloat? (pyStrip p)).getD 0

/-- The colour weight the render adapter assigns to the `i`-th point of a
snapshot with timestamp window `ts`: normalised sequence number if the
snapshot has more than one point, else `0`. -/
def wOf (ts : List ℕ) (i : ℕ) : ℚ :=
  if 1 < ts.length then
    ((ts.getD i 0 : ℚ) - (seqMin ts : ℚ)) / ((seqMax ts : ℚ) - (seqMin ts : ℚ))
  else 0

/-! ## Deque window lemmas -/

/-- The last `m` elements of `L` — the contents of a `maxlen=m` deque after
appending all of `L` in order. -/
def window (m : ℕ) (L : List α) : List α :=
  L.drop (L.length - m)

/-- One deque append slides the window. -/
theorem dequeApp_window (m : ℕ) (L : List α) (a : α) :
    dequeApp m (window m L) a = window m (L ++ [a]) := by
  simp only [dequeApp, window]
  rcases Nat.lt_or_ge L.length m with h | h
  · have h0 : L.length - m = 0 := by omega
    rw [h0, List.drop_zero]
  · have hX : (L.drop (L.length - m)).length = m := by
      rw [List.length_drop]; omega
    have hidx : (L.drop (L.length - m) ++ [a]).length - m = 1 := by
      simp [hX]
    have hidx2 : (L ++ [a]).length - m = L.length + 1 - m := by simp
    rw [hidx, hidx2]
    rcases Nat.eq_zero_or_pos m with hm | hm
    · subst hm
      simp only [Nat.sub_zero, List.drop_length, List.nil_append]
      rw [List.drop_eq_nil_of_le (by simp), List.drop_eq_nil_of_le (by simp)]
    · rw [List.drop_append_eq_append_drop, List.drop_append_eq_append_drop,
        List.drop_drop, hX]
      have h1 : 1 - m = 0 := by omega
      have h2 : L.length + 1 - m - L.length = 0 := by omega
      have h3 : L.length - m + 1 = L.length + 1 - m := by omega
      rw [h1, h2, h3]

/-- Pushing a list of points into a fresh store: every deque is the
sliding window over the full pushed history, and `frame_count` counts all
pushes ever made. -/
theorem pushAll_spec (m : ℕ) (ps : List (ℝ × ℝ × ℝ)) :
    pushAll (TrajStore.empty m) ps =
      ⟨m, window m (ps.map fun p => p.1), window m (ps.map fun p => p.2.1),
       window m (ps.map fun p => p.2.2), window m (List.range ps.length),
       ps.length⟩ := by
  induction ps using List.reverseRecOn with
  | nil => simp [pushAll, TrajStore.empty, window]
  | append_singleton ps a ih =>
    have hstep : pushAll (TrajStore.empty m) (ps ++ [a]) =
        TrajStore.push (pushAll (TrajStore.empty m) ps) a := by
      simp [pushAll, List.foldl_append]
    rw [hstep, ih]
    simp only [TrajStore.push, dequeApp_window, List.map_append, List.map_cons,
      List.map_nil, List.length_append, List.length_cons, List.length_nil,
      List.range_succ]

/-! ## Parser lemmas -/

theorem telemetry_keys_get (i : ℕ) (hi : i ≤ 9) :
    TELEMETRY_KEYS.get? i = some (TELEMETRY_KEYS.getD i "") ∧
      TELEMETRY_KEYS.getD i "" ≠ "mode" := by
  interval_cases i <;> exact ⟨rfl, by decide⟩

theorem pyDataEntry_num (i : ℕ) (hi : i ≤ 9) (p : List Char) (hp : goodField p) :
    pyDataEntry i p = .ok (TELEMETRY_KEYS.getD i "", .num (numOf p)) := by
  obtain ⟨hk, hm⟩ := telemetry_keys_get i hi
  simp only [pyDataEntry, hk]
  rw [if_pos hm]
  by_cases he : pyStrip p = []
  · rw [if_pos he]
    simp [numOf, he]
  · rw [if_neg he]
    rcases hf : pyFloat? (pyStrip p) with _ | q
    · rcases hp with h1 | h2
      · exact absurd h1 he
      · rw [hf] at h2
        simp at h2
    · simp [numOf, he, hf]

theorem pyDataEntry_mode (p : List Char) :
    pyDataEntry 10 p = .ok ("mode", .str (String.mk (pyStrip p))) := rfl

theorem pyDataEntry_oob (i : ℕ) (hi : 11 ≤ i) (p : List Char) :
    pyDataEntry i p = .error .indexError := by
  have hk : TELEMETRY_KEYS.get? i = none := by
    rw [List.get?_eq_none]
    simp only [TELEMETRY_KEYS, List.length_cons, List.length_nil]
    omega
  simp only [pyDataEntry, hk]

theorem pyDataEntry_ok_lt (i : ℕ) (p : List Char) (en)
    (h : pyDataEntry i p = .ok en) : i < 11 := by
  by_contra hc
  rw [pyDataEntry_oob i (by omega) p] at h
  exact Except.noConfusion h

theorem pyDataEntry_ok_good (i : ℕ) (hi : i ≤ 9) (p : List Char) (en)
    (h : pyDataEntry i p = .ok en) : goodField p := by
  obtain ⟨hk, hm⟩ := telemetry_keys_get i hi
  simp only [pyDataEntry, hk] at h
  rw [if_pos hm] at h
  by_cases he : pyStrip p = []
  · exact Or.inl he
  · rw [if_neg he] at h
    rcases hf : pyFloat? (pyStrip p) with _ | q
    · rw [hf] at h
      exact Except.noConfusion h
    · exact Or.inr (by simp [hf])

theorem pyData_ok_length (ps : List (List Char)) (i : ℕ) (l)
    (h : pyData ps i = .ok l) : l.length = ps.length := by
  induction ps generalizing i l with
  | nil =>
    simp only [pyData] at h
    cases h
    rfl
  | cons p t ih =>
    simp only [pyData] at h
    rcases he : pyDataEntry i p with e | en <;> rw [he] at h
    · exact Except.noConfusion h
    · rcases hr : pyData t (i + 1) with e | rest <;> rw [hr] at h
      · exact Except.noConfusion h
      · cases h
        simp [ih _ _ hr]

theorem pyData_ok_good (ps : List (List Char)) (i : ℕ) (l)
    (h : pyData ps i = .ok l) :
    ∀ j (hj : j < ps.length), i + j ≤ 9 → goodField ps[j] := by
  induction ps generalizing i l with
  | nil =>
    intro j hj
    simp at hj
  | cons p t ih =>
    intro j hj hij
    simp only [pyData] at h
    rcases he : pyDataEntry i p with e | en <;> rw [he] at h
    · exact Except.noConfusion h
    · rcases hr : pyData t (i + 1) with e | rest <;> rw [hr] at h
      · exact Except.noConfusion h
      · cases j with
        | zero => exact pyDataEntry_ok_good i (by omega) p en he
        | succ k =>
          have hk : k < t.length := by simpa using hj
          exact ih _ _ hr k hk (by omega)

theorem pyData_eleven (p0 p1 p2 p3 p4 p5 p6 p7 p8 p9 pm : List Char)
    (h : ∀ p ∈ [p0, p1, p2, p3, p4, p5, p6, p7, p8, p9], goodField p) :
    pyData [p0, p1, p2, p3, p4, p5, p6, p7, p8, p9, pm] 0 =
      .ok [("time", .num (numOf p0)), ("roll", .num (numOf p1)),
           ("pitch", .num (numOf p2)), ("yaw", .num (numOf p3)),
           ("roll_rate", .num (numOf p4)), ("pitch_rate", .num (numOf p5)),
           ("yaw_rate", .num (numOf p6)), ("accel_x", .num (numOf p7)),
           ("accel_y", .num (numOf p8)), ("accel_z", .num (numOf p9)),
           ("mode", .str (String.mk (pyStrip pm)))] := by
  have h0 := pyDataEntry_num 0 (by omega) p0 (h p0 (by simp))
  have h1 := pyDataEntry_num 1 (by omega) p1 (h p1 (by simp))
  have h2 := pyDataEntry_num 2 (by omega) p2 (h p2 (by simp))
  have h3 := pyDataEntry_num 3 (by omega) p3 (h p3 (by simp))
  have h4 := pyDataEntry_num 4 (by omega) p4 (h p4 (by simp))
  have h5 := pyDataEntry_num 5 (by omega) p5 (h p5 (by simp))
  have h6 := pyDataEntry_num 6 (by omega) p6 (h p6 (by simp))
  have h7 := pyDataEntry_num 7 (by omega) p7 (h p7 (by simp))
  have h8 := pyDataEntry_num 8 (by omega) p8 (h p8 (by simp))
  have h9 := pyDataEntry_num 9 (by omega) p9 (h p9 (by simp))
  simp only [pyData, h0, h1, h2, h3, h4, h5, h6, h7, h8, h9, pyDataEntry_mode,
    TELEMETRY_KEYS, List.getD_cons_zero, List.getD_cons_succ]
  rfl

theorem parse_eleven (line : String)
    (p0 p1 p2 p3 p4 p5 p6 p7 p8 p9 pm : List Char)
    (hsplit : pySplit '|' line.data = [p0, p1, p2, p3, p4, p5, p6, p7, p8, p9, pm])
    (h : ∀ p ∈ [p0, p1, p2, p3, p4, p5, p6, p7, p8, p9], goodField p) :
    parse_telemetry_human line =
      some ⟨numOf p0, numOf p1, numOf p2, numOf p3, numOf p4, numOf p5,
            numOf p6, numOf p7, numOf p8, numOf p9, String.mk (pyStrip pm)⟩ := by
  unfold parse_telemetry_human
  rw [hsplit, pyData_eleven p0 p1 p2 p3 p4 p5 p6 p7 p8 p9 pm h]
  rfl

theorem parse_none_of_fieldcount (line : String)
    (h : (pySplit '|' line.data).length ≠ 11) :
    parse_telemetry_human line = none := by
  unfold parse_telemetry_human
  rcases hd : pyData (pySplit '|' line.data) 0 with e | l
  · rfl
  · have hl : l.length ≠ TELEMETRY_KEYS.length := by
      rw [pyData_ok_length _ _ _ hd]
      simpa [TELEMETRY_KEYS] using h
    show (if l.length = TELEMETRY_KEYS.length then frameOfData l else none) = none
    rw [if_neg hl]

theorem parse_isSome_conditions (line : String)
    (h : (parse_telemetry_human line).isSome) :
    (pySplit '|' line.data).length = 11 ∧
      ∀ p ∈ (pySplit '|' line.data).take 10, goodField p := by
  have hlen : (pySplit '|' line.data).length = 11 := by
    by_contra hc
    rw [parse_none_of_fieldcount line hc] at h
    simp at h
  refine ⟨hlen, ?_⟩
  unfold parse_telemetry_human at h
  rcases hd : pyData (pySplit '|' line.data) 0 with e | l
  · rw [hd] at h
    simp at h
  · intro p hp
    obtain ⟨j, hj, heq⟩ := List.getElem_of_mem hp
    have hj10 : j < 10 := by
      have := hj
      simp only [List.length_take] at this
      omega
    have hjps : j < (pySplit '|' line.data).length := by omega
    rw [← heq, List.getElem_take]
    exact pyData_ok_good _ _ _ hd j hjps (by omega)

theorem pySplit_replicate (n : ℕ) :
    pySplit '|' (List.replicate n '|') = List.replicate (n + 1) ([] : List Char) := by
  induction n with
  | zero => rfl
  | succ k ih => simp [List.replicate_succ, pySplit, ih]

theorem list_length_eleven (l : List α) (h : l.length = 11) :
    ∃ a0 a1 a2 a3 a4 a5 a6 a7 a8 a9 a10,
      l = [a0, a1, a2, a3, a4, a5, a6, a7, a8, a9, a10] := by
  obtain ⟨b0, r0, rfl⟩ := List.exists_of_length_succ l h
  have h0 : r0.length = 10 := by simpa using h
  obtain ⟨b1, r1, rfl⟩ := List.exists_of_length_succ r0 h0
  have h1 : r1.length = 9 := by simpa using h0
  obtain ⟨b2, r2, rfl⟩ := List.exists_of_length_succ r1 h1
  have h2 : r2.length = 8 := by simpa using h1
  obtain ⟨b3, r3, rfl⟩ := List.exists_of_length_succ r2 h2
  have h3 : r3.length = 7 := by simpa using h2
  obtain ⟨b4, r4, rfl⟩ := List.exists_of_length_succ r3 h3
  have h4 : r4.length = 6 := by simpa using h3
  obtain ⟨b5, r5, rfl⟩ := List.exists_of_length_succ r4 h4
  have h5 : r5.length = 5 := by simpa using h4
  obtain ⟨b6, r6, rfl⟩ := List.exists_of_length_succ r5 h5
  have h6 : r6.length = 4 := by simpa using h5
  obtain ⟨b7, r7, rfl⟩ := List.exists_of_length_succ r6 h6
  have h7 : r7.length = 3 := by simpa using h6
  obtain ⟨b8, r8, rfl⟩ := List.exists_of_length_succ r7 h7
  have h8 : r8.length = 2 := by simpa using h7
  obtain ⟨b9, r9, rfl⟩ := List.exists_of_length_succ r8 h8
  have h9 : r9.length = 1 := by simpa using h8
  obtain ⟨b10, r10, rfl⟩ := List.exists_of_length_succ r9 h9
  have h10 : r10 = [] := List.eq_nil_of_length_eq_zero (by simpa using h9)
  subst h10
  exact ⟨b0, b1, b2, b3, b4, b5, b6, b7, b8, b9, b10, rfl⟩

/-! ## Claims -/

/-- C1: for every telemetry frame, previous position and velocity, constant
speed and elapsed time `dt`, the integrator returns the new position
`prev_position + (dx, dy, dz) * dt` with `dx = speed·cos(pitch)·cos(yaw)`,
`dy = speed·cos(pitch)·sin(yaw)`, `dz = speed·sin(pitch)` (pitch and yaw
converted from degrees to radians), and `(dx, dy, dz)` as the new
velocity; in particular, with pitch = 0, yaw = 0, speed = 1, dt = 1 from
position `(0,0,0)` the new position is `(1,0,0)`. -/
theorem C1_integrator_direction_and_position :
    (∀ (tel : Frame) (pos vel : ℝ × ℝ × ℝ) (speed dt : ℝ),
      compute_position_from_telemetry tel pos vel speed (some dt) =
        ((pos.1 + speed * Real.cos ((tel.pitch : ℝ) * Real.pi / 180)
            * Real.cos ((tel.yaw : ℝ) * Real.pi / 180) * dt,
          pos.2.1 + speed * Real.cos ((tel.pitch : ℝ) * Real.pi / 180)
            * Real.sin ((tel.yaw : ℝ) * Real.pi / 180) * dt,
          pos.2.2 + speed * Real.sin ((tel.pitch : ℝ) * Real.pi / 180) * dt),
         (speed * Real.cos ((tel.pitch : ℝ) * Real.pi / 180)
            * Real.cos ((tel.yaw : ℝ) * Real.pi / 180),
          speed * Real.cos ((tel.pitch : ℝ) * Real.pi / 180)
            * Real.sin ((tel.yaw : ℝ) * Real.pi / 180),
          speed * Real.sin ((tel.pitch : ℝ) * Real.pi / 180)))) ∧
    compute_position_from_telemetry ⟨0, 0, 0, 0, 0, 0, 0, 0, 0, 0, "NOML"⟩
      (0, 0, 0) (0, 0, 0) 1 (some 1) = ((1, 0, 0), (1, 0, 0)) := by
  constructor
  · intro tel pos vel speed dt
    rfl
  · norm_num [compute_position_from_telemetry, radians, Real.cos_zero, Real.sin_zero]

/-- C2 counterexample: with a prior timestamp of exactly `0.0` and a frame
at time `1.0`, the code computes `dt = 0.05` (the Python truthiness test
`if self.last_time` treats `0.0` as unset), not `1.0 - 0.0` as the claim
states for "every prior timestamp value, including 0.0". -/
theorem C2_counterexample_zero_last_time :
    computeDt (some 0) 1 = 1 / 20 ∧ (1 : ℚ) - 0 ≠ 1 / 20 := by
  constructor
  · simp [computeDt]
  · norm_num

/-- C2 (amended): the elapsed time used by the integrator is
`dt = frame.time - state.last_time` whenever the prior timestamp is set
and nonzero; when no prior timestamp exists — or when the prior timestamp
equals `0.0`, which the truthiness test treats the same way — `dt = 0.05`;
the resulting `dt` (negative or zero included) is passed to the integrator
as-is, with no clamping. -/
theorem C2_dt_computation :
    (∀ t lt : ℚ, lt ≠ 0 → computeDt (some lt) t = t - lt) ∧
    (∀ t : ℚ, computeDt none t = 1 / 20) ∧
    (∀ t : ℚ, computeDt (some 0) t = 1 / 20) ∧
    (∀ (s : VizState) (f : Frame),
      (update s (some f)).position =
        (compute_position_from_telemetry f s.position s.velocity
          s.constant_speed (some ((computeDt s.last_time f.time : ℚ) : ℝ))).1) := by
  refine ⟨fun t lt h => ?_, fun t => rfl, fun t => by simp [computeDt], fun s f => rfl⟩
  simp [computeDt, h]

/-- C2 witness: a decreasing timestamp pair (prior `2.0`, frame `1.0`)
yields the raw negative difference `-1`. -/
theorem C2_dt_computation_witness :
    (2 : ℚ) ≠ 0 ∧ computeDt (some 2) 1 = 1 - 2 := by
  refine ⟨by norm_num, C2_dt_computation.1 1 2 (by norm_num)⟩

/-- C3 counterexample: the twelve-field line `0|1|2|3|4|5|6|7|8|9|M|X`
has at least 11 fields and its fields 0-9 are all numeric-parseable, yet
the parser fails on it (`TELEMETRY_KEYS[11]` raises `IndexError`),
contradicting the claim that such lines always parse. -/
theorem C3_counterexample_twelve_fields :
    (pySplit '|' ("0|1|2|3|4|5|6|7|8|9|M|X" : String).data).length = 12 ∧
    (∀ p ∈ (pySplit '|' ("0|1|2|3|4|5|6|7|8|9|M|X" : String).data).take 10,
      goodField p) ∧
    parse_telemetry_human "0|1|2|3|4|5|6|7|8|9|M|X" = none := by decide

/-- C3 (amended): parsing succeeds exactly when the line splits on `|`
into exactly 11 fields (more than 11 raises `IndexError`, caught as a
failure) and every one of fields 0-9 is, after trimming, empty (defaulted
to `0.0`) or parseable as a float; on success the fields map positionally
to time, roll, pitch, yaw, roll_rate, pitch_rate, yaw_rate, accel_x,
accel_y, accel_z, mode, the numeric fields carrying their parsed (or
defaulted) values and the mode taken verbatim after trimming. -/
theorem C3_parse_characterisation :
    ∀ line : String,
      ((parse_telemetry_human line).isSome ↔
        (pySplit '|' line.data).length = 11 ∧
          ∀ p ∈ (pySplit '|' line.data).take 10, goodField p) ∧
      (∀ p0 p1 p2 p3 p4 p5 p6 p7 p8 p9 pm : List Char,
        pySplit '|' line.data = [p0, p1, p2, p3, p4, p5, p6, p7, p8, p9, pm] →
        (∀ p ∈ [p0, p1, p2, p3, p4, p5, p6, p7, p8, p9], goodField p) →
        parse_telemetry_human line =
          some ⟨numOf p0, numOf p1, numOf p2, numOf p3, numOf p4, numOf p5,
                numOf p6, numOf p7, numOf p8, numOf p9,
                String.mk (pyStrip pm)⟩) := by
  intro line
  refine ⟨⟨parse_isSome_conditions line, ?_⟩, parse_eleven line⟩
  rintro ⟨hlen, hgood⟩
  obtain ⟨p0, p1, p2, p3, p4, p5, p6, p7, p8, p9, pm, hsp⟩ :=
    list_length_eleven _ hlen
  rw [parse_eleven line p0 p1 p2 p3 p4 p5 p6 p7 p8 p9 pm hsp ?_]
  · rfl
  · intro p hp
    refine hgood p ?_
    have ht : List.take 10 [p0, p1, p2, p3, p4, p5, p6, p7, p8, p9, pm] =
        [p0, p1, p2, p3, p4, p5, p6, p7, p8, p9] := rfl
    rw [hsp, ht]
    exact hp

/-- C3 witness: the line `1.00|0|0|0|0|0|0|0|0|0|NOML` splits into eleven
fields with fields 0-9 numeric, and parses to the expected frame. -/
theorem C3_parse_characterisation_witness :
    pySplit '|' ("1.00|0|0|0|0|0|0|0|0|0|NOML" : String).data =
      [['1', '.', '0', '0'], ['0'], ['0'], ['0'], ['0'], ['0'], ['0'], ['0'],
       ['0'], ['0'], ['N', 'O', 'M', 'L']] ∧
    (∀ p ∈ [['1', '.', '0', '0'], ['0'], ['0'], ['0'], ['0'], ['0'], ['0'],
      ['0'], ['0'], ['0']], goodField p) ∧
    parse_telemetry_human "1.00|0|0|0|0|0|0|0|0|0|NOML" =
      some ⟨1, 0, 0, 0, 0, 0, 0, 0, 0, 0, "NOML"⟩ := by
  have hs : pySplit '|' ("1.00|0|0|0|0|0|0|0|0|0|NOML" : String).data =
      [['1', '.', '0', '0'], ['0'], ['0'], ['0'], ['0'], ['0'], ['0'], ['0'],
       ['0'], ['0'], ['N', 'O', 'M', 'L']] := by decide
  have hg : ∀ p ∈ [['1', '.', '0', '0'], ['0'], ['0'], ['0'], ['0'], ['0'],
      ['0'], ['0'], ['0'], ['0']], goodField p := by decide
  have h := (C3_parse_characterisation "1.00|0|0|0|0|0|0|0|0|0|NOML").2
    _ _ _ _ _ _ _ _ _ _ _ hs hg
  have e1 : numOf ['1', '.', '0', '0'] = ratVal ['1'] ['0', '0'] 0 := rfl
  have e0 : numOf ['0'] = ratVal ['0'] [] 0 := rfl
  have v1 : ratVal ['1'] ['0', '0'] 0 = 1 := by
    norm_num [ratVal, (by decide : digitsVal ['1'] = 1),
      (by decide : digitsVal ['0', '0'] = 0)]
  have v0 : ratVal ['0'] [] 0 = 0 := by
    norm_num [ratVal, (by decide : digitsVal ['0'] = 0),
      (by decide : digitsVal ([] : List Char) = 0)]
  rw [e1, e0, v1, v0] at h
  exact ⟨hs, hg, h⟩

/-- C4 counterexample: the line of exactly ten `|` delimiters splits into
eleven empty fields, every numeric field defaults to `0.0` and the mode to
the empty string — the parser returns a frame instead of failing with a
field-count error. -/
theorem C4_counterexample_ten_delimiters :
    (∀ c ∈ ("||||||||||" : String).data, c = '|') ∧
    parse_telemetry_human "||||||||||" =
      some ⟨0, 0, 0, 0, 0, 0, 0, 0, 0, 0, ""⟩ := by decide

/-- C4 (amended): the empty string fails the field-count check (one field)
with no exception, and a line of `n` pipe delimiters (`n+1` empty fields)
likewise fails for every `n ≠ 10`; but the line of exactly ten delimiters
has eleven fields and parses to the all-zero frame with empty mode. -/
theorem C4_empty_and_delimiter_lines :
    parse_telemetry_human "" = none ∧
    (∀ n : ℕ, n ≠ 10 →
      parse_telemetry_human (String.mk (List.replicate n '|')) = none) ∧
    parse_telemetry_human (String.mk (List.replicate 10 '|')) =
      some ⟨0, 0, 0, 0, 0, 0, 0, 0, 0, 0, ""⟩ := by
  refine ⟨by decide, ?_, by decide⟩
  intro n hn
  apply parse_none_of_fieldcount
  rw [show (String.mk (List.replicate n '|')).data = List.replicate n '|' from rfl,
    pySplit_replicate]
  simp only [List.length_replicate]
  omega

/-- C4 witness: three delimiters (four empty fields) fail the field-count
check. -/
theorem C4_empty_and_delimiter_lines_witness :
    (3 : ℕ) ≠ 10 ∧
    parse_telemetry_human (String.mk (List.replicate 3 '|')) = none := by
  exact ⟨by decide, C4_empty_and_delimiter_lines.2.1 3 (by decide)⟩

/-! ## Two-tick pipeline evaluation -/

theorem parse_line_one :
    parse_telemetry_human "1.00|0|0|0|0|0|0|0|0|0|NOML" =
      some ⟨1, 0, 0, 0, 0, 0, 0, 0, 0, 0, "NOML"⟩ := by
  have h : parse_telemetry_human "1.00|0|0|0|0|0|0|0|0|0|NOML" =
      some ⟨ratVal ['1'] ['0', '0'] 0, ratVal ['0'] [] 0, ratVal ['0'] [] 0,
            ratVal ['0'] [] 0, ratVal ['0'] [] 0, ratVal ['0'] [] 0,
            ratVal ['0'] [] 0, ratVal ['0'] [] 0, ratVal ['0'] [] 0,
            ratVal ['0'] [] 0, "NOML"⟩ := rfl
  have v1 : ratVal ['1'] ['0', '0'] 0 = 1 := by
    norm_num [ratVal, (by decide : digitsVal ['1'] = 1),
      (by decide : digitsVal ['0', '0'] = 0)]
  have v0 : ratVal ['0'] [] 0 = 0 := by
    norm_num [ratVal, (by decide : digitsVal ['0'] = 0),
      (by decide : digitsVal ([] : List Char) = 0)]
  rw [h]
  simp only [v1, v0]

theorem parse_line_two :
    parse_telemetry_human "2.00|0|0|0|0|0|0|0|0|0|NOML" =
      some ⟨2, 0, 0, 0, 0, 0, 0, 0, 0, 0, "NOML"⟩ := by
  have h : parse_telemetry_human "2.00|0|0|0|0|0|0|0|0|0|NOML" =
      some ⟨ratVal ['2'] ['0', '0'] 0, ratVal ['0'] [] 0, ratVal ['0'] [] 0,
            ratVal ['0'] [] 0, ratVal ['0'] [] 0, ratVal ['0'] [] 0,
            ratVal ['0'] [] 0, ratVal ['0'] [] 0, ratVal ['0'] [] 0,
            ratVal ['0'] [] 0, "NOML"⟩ := rfl
  have v2 : ratVal ['2'] ['0', '0'] 0 = 2 := by
    norm_num [ratVal, (by decide : digitsVal ['2'] = 2),
      (by decide : digitsVal ['0', '0'] = 0)]
  have v0 : ratVal ['0'] [] 0 = 0 := by
    norm_num [ratVal, (by decide : digitsVal ['0'] = 0),
      (by decide : digitsVal ([] : List Char) = 0)]
  rw [h]
  simp only [v2, v0]

theorem update_tick_one :
    update initState (some ⟨1, 0, 0, 0, 0, 0, 0, 0, 0, 0, "NOML"⟩) =
      ⟨1, (1 / 20, 0, 0), (1, 0, 0), some 1, ⟨1000, [1 / 20], [0], [0], [0], 1⟩⟩ := by
  norm_num [update, initState, computeDt, compute_position_from_telemetry, radians,
    TrajStore.empty, TrajStore.push, dequeApp, Real.cos_zero, Real.sin_zero]

theorem update_tick_two :
    update ⟨1, (1 / 20, 0, 0), (1, 0, 0), some 1, ⟨1000, [1 / 20], [0], [0], [0], 1⟩⟩
      (some ⟨2, 0, 0, 0, 0, 0, 0, 0, 0, 0, "NOML"⟩) =
      ⟨1, (21 / 20, 0, 0), (1, 0, 0), some 2,
       ⟨1000, [1 / 20, 21 / 20], [0, 0], [0, 0], [0, 1], 2⟩⟩ := by
  norm_num [update, computeDt, compute_position_from_telemetry, radians,
    TrajStore.push, dequeApp, Real.cos_zero, Real.sin_zero]

theorem two_tick_run :
    tick (tick initState (some "1.00|0|0|0|0|0|0|0|0|0|NOML"))
        (some "2.00|0|0|0|0|0|0|0|0|0|NOML") =
      ⟨1, (21 / 20, 0, 0), (1, 0, 0), some 2,
       ⟨1000, [1 / 20, 21 / 20], [0, 0], [0, 0], [0, 1], 2⟩⟩ := by
  have e1 : tick initState (some "1.00|0|0|0|0|0|0|0|0|0|NOML") =
      ⟨1, (1 / 20, 0, 0), (1, 0, 0), some 1, ⟨1000, [1 / 20], [0], [0], [0], 1⟩⟩ := by
    rw [show tick initState (some "1.00|0|0|0|0|0|0|0|0|0|NOML") =
        update initState (parse_telemetry_human "1.00|0|0|0|0|0|0|0|0|0|NOML") from rfl,
      parse_line_one, update_tick_one]
  rw [e1,
    show tick (⟨1, (1 / 20, 0, 0), (1, 0, 0), some 1,
        ⟨1000, [1 / 20], [0], [0], [0], 1⟩⟩ : VizState)
        (some "2.00|0|0|0|0|0|0|0|0|0|NOML") =
      update ⟨1, (1 / 20, 0, 0), (1, 0, 0), some 1, ⟨1000, [1 / 20], [0], [0], [0], 1⟩⟩
        (parse_telemetry_human "2.00|0|0|0|0|0|0|0|0|0|NOML") from rfl,
    parse_line_two, update_tick_two]

/-- C5 counterexample: feeding `1.00|0|0|0|0|0|0|0|0|0|NOML` then
`2.00|0|0|0|0|0|0|0|0|0|NOML` from the initial state with speed 1 does not
produce the trajectory x-coordinates `0` then `1` claimed: the first tick
has no prior timestamp, so it uses the default `dt = 0.05` and stores the
already-advanced position. -/
theorem C5_counterexample_end_to_end :
    (tick (tick initState (some "1.00|0|0|0|0|0|0|0|0|0|NOML"))
        (some "2.00|0|0|0|0|0|0|0|0|0|NOML")).store.x_data ≠ [(0 : ℝ), 1] := by
  rw [two_tick_run]
  intro h
  have h0 : (1 : ℝ) / 20 = 0 := by
    injection h
  norm_num at h0

/-- C5 (amended): feeding the line `1.00|0|0|0|0|0|0|0|0|0|NOML` followed
by `2.00|0|0|0|0|0|0|0|0|0|NOML` from the initial state (origin, no prior
timestamp) with constant speed 1 produces the trajectory points
`(0.05, 0, 0)` and then `(1.05, 0, 0)`: the first tick uses the default
`dt = 0.05` (no prior timestamp exists) and each stored point is the
position after the update, not before it; the second tick uses
`dt = 2.00 - 1.00 = 1`. -/
theorem C5_end_to_end_trajectory :
    (tick (tick initState (some "1.00|0|0|0|0|0|0|0|0|0|NOML"))
        (some "2.00|0|0|0|0|0|0|0|0|0|NOML")).store.x_data = [(1 : ℝ) / 20, 21 / 20] ∧
    (tick (tick initState (some "1.00|0|0|0|0|0|0|0|0|0|NOML"))
        (some "2.00|0|0|0|0|0|0|0|0|0|NOML")).store.y_data = [(0 : ℝ), 0] ∧
    (tick (tick initState (some "1.00|0|0|0|0|0|0|0|0|0|NOML"))
        (some "2.00|0|0|0|0|0|0|0|0|0|NOML")).store.z_data = [(0 : ℝ), 0] ∧
    (tick (tick initState (some "1.00|0|0|0|0|0|0|0|0|0|NOML"))
        (some "2.00|0|0|0|0|0|0|0|0|0|NOML")).position = ((21 : ℝ) / 20, 0, 0) := by
  rw [two_tick_run]
  exact ⟨rfl, rfl, rfl, rfl⟩

/-- C6: for every sequence of pushes into a fresh store with capacity
`max_points`, the store never holds more than `max_points` points; after
pushing `n` points it holds exactly the `min n max_points` most recently
pushed points in original insertion order (strict FIFO eviction of the
oldest); the sequence numbers held are the corresponding suffix of
`0, 1, 2, …`, strictly increasing, and `frame_count` counts every push
ever made so no sequence number is ever reused; the capacity itself never
changes. -/
theorem C6_store_bounded_fifo :
    ∀ (m : ℕ) (ps : List (ℝ × ℝ × ℝ)),
      (pushAll (TrajStore.empty m) ps).x_data.length ≤ m ∧
      (pushAll (TrajStore.empty m) ps).x_data.length = min ps.length m ∧
      (pushAll (TrajStore.empty m) ps).x_data =
        (ps.map fun p => p.1).drop (ps.length - m) ∧
      (pushAll (TrajStore.empty m) ps).y_data =
        (ps.map fun p => p.2.1).drop (ps.length - m) ∧
      (pushAll (TrajStore.empty m) ps).z_data =
        (ps.map fun p => p.2.2).drop (ps.length - m) ∧
      (pushAll (TrajStore.empty m) ps).timestamps =
        (List.range ps.length).drop (ps.length - m) ∧
      List.Chain' (· < ·) (pushAll (TrajStore.empty m) ps).timestamps ∧
      (pushAll (TrajStore.empty m) ps).frame_count = ps.length ∧
      (pushAll (TrajStore.empty m) ps).max_points = m := by
  intro m ps
  rw [pushAll_spec]
  have hchain : List.Chain' (· < ·) ((List.range ps.length).drop (ps.length - m)) :=
    ((List.pairwise_lt_range ps.length).sublist (List.drop_sublist _ _)).chain'
  refine ⟨?_, ?_, by simp [window, List.length_map], by simp [window, List.length_map],
    by simp [window, List.length_map], by simp [window, List.length_range],
    by simpa [window, List.length_range] using hchain, rfl, rfl⟩
  · simp only [window, List.length_drop, List.length_map]
    omega
  · simp only [window, List.length_drop, List.length_map]
    omega

/-- C8: after pushing exactly the points `(0,0,0)` and `(10,0,0)` into a
fresh store, the per-axis `(min, max)` extents are `(0,10)` on x and
`(0,0)` on y and z; the render-side limits then add 10% of the range as
padding — `1.0` here for x — falling back to `1.0` when the range is zero,
as on the y axis. -/
theorem C8_axis_bounds_two_points :
    axis_bounds (((TrajStore.empty 1000).push (0, 0, 0)).push (10, 0, 0)) =
      ((0, 10), (0, 0), (0, 0)) ∧
    limsOf (axis_bounds (((TrajStore.empty 1000).push (0, 0, 0)).push (10, 0, 0))).1 =
      (-1, 11) ∧
    limsOf (axis_bounds (((TrajStore.empty 1000).push (0, 0, 0)).push (10, 0, 0))).2.1 =
      (-1, 1) := by
  have hstore : ((TrajStore.empty 1000).push (0, 0, 0)).push ((10 : ℝ), (0 : ℝ), (0 : ℝ)) =
      ⟨1000, [0, 10], [0, 0], [0, 0], [0, 1], 2⟩ := by
    simp [TrajStore.empty, TrajStore.push, dequeApp]
  rw [hstore]
  have hb : axis_bounds ⟨1000, [(0 : ℝ), 10], [0, 0], [0, 0], [0, 1], 2⟩ =
      ((0, 10), (0, 0), (0, 0)) := by
    norm_num [axis_bounds, listMinR, listMaxR, min_def, max_def]
  refine ⟨hb, ?_, ?_⟩
  · rw [hb]
    norm_num [limsOf, padOf]
  · rw [hb]
    norm_num [limsOf, padOf]

/-- C7: for every non-empty snapshot of the store's timestamp window (its
sequence numbers are strictly increasing), the render adapter assigns the
`i`-th point the colour weight `w = (seq - seq_min) / (seq_max - seq_min)`
when the snapshot has more than one point and `w = 0` when it has exactly
one, and the colour `RGBA(r = w, g = 0, b = 1 - w, a = 1)`. -/
theorem C7_color_weights :
    ∀ ts : List ℕ, ts ≠ [] → List.Chain' (· < ·) ts →
      (renderColors ts).length = ts.length ∧
      ∀ i, i < ts.length →
        (renderColors ts)[i]? = some (wOf ts i, 0, 1 - wOf ts i, 1) := by
  intro ts hne hchain
  by_cases h : 1 < ts.length
  · constructor
    · simp only [renderColors, colorArray, normWeights, if_pos h, List.length_map]
    · intro i hi
      simp only [renderColors, colorArray, normWeights, if_pos h, List.getElem?_map,
        List.getElem?_eq_getElem hi, Option.map_some]
      have hd : ts.getD i 0 = ts[i] := by
        rw [List.getD_eq_getElem?_getD, List.getElem?_eq_getElem hi]
        rfl
      simp [wOf, if_pos h, hd, List.getElem?_eq_getElem hi]
  · have hlen : ts.length = 1 := by
      cases ts with
      | nil => exact absurd rfl hne
      | cons a t =>
        cases t with
        | nil => rfl
        | cons b u => simp at h
    constructor
    · simp only [renderColors, colorArray, normWeights, if_neg h, List.length_map,
        List.length_cons, List.length_nil, hlen]
      norm_num
    · intro i hi
      have hi0 : i = 0 := by omega
      subst hi0
      simp only [renderColors, colorArray, normWeights, if_neg h, wOf,
        List.map_cons, List.map_nil, List.getElem?_cons_zero]

/-- C7 witness: the two-point snapshot with sequences `(5, 15)` gets the
weights `0` and `1`, hence colours `RGBA(0,0,1,1)` and `RGBA(1,0,0,1)`. -/
theorem C7_color_weights_witness :
    ([5, 15] : List ℕ) ≠ [] ∧ List.Chain' (· < ·) ([5, 15] : List ℕ) ∧
    (renderColors [5, 15])[0]? = some (0, 0, 1, 1) ∧
    (renderColors [5, 15])[1]? = some (1, 0, 0, 1) := by
  have h := C7_color_weights [5, 15] (by simp) (by simp)
  have h0 := h.2 0 (by norm_num)
  have h1 := h.2 1 (by norm_num)
  have hmin : seqMin [5, 15] = 5 := by decide
  have hmax : seqMax [5, 15] = 15 := by decide
  have hw0 : wOf [5, 15] 0 = 0 := by
    norm_num [wOf, hmin, hmax]
  have hw1 : wOf [5, 15] 1 = 1 := by
    norm_num [wOf, hmin, hmax]
  rw [hw0] at h0
  rw [hw1] at h1
  norm_num at h0 h1
  exact ⟨by simp, by simp, h0, h1⟩

/-- C9: a tick with no line available, or whose line the parser rejects,
performs no state mutation: position, velocity, last_time, the deque
contents and the point counter are all unchanged. -/
theorem C9_failed_tick_mutates_nothing :
    (∀ s : VizState, tick s none = s) ∧
    (∀ (s : VizState) (line : String), parse_telemetry_human line = none →
      (tick s (some line)).position = s.position ∧
      (tick s (some line)).velocity = s.velocity ∧
      (tick s (some line)).last_time = s.last_time ∧
      (tick s (some line)).store.x_data = s.store.x_data ∧
      (tick s (some line)).store.y_data = s.store.y_data ∧
      (tick s (some line)).store.z_data = s.store.z_data ∧
      (tick s (some line)).store.timestamps = s.store.timestamps ∧
      (tick s (some line)).store.frame_count = s.store.frame_count) := by
  refine ⟨fun s => rfl, fun s line h => ?_⟩
  simp [tick, h, update]

/-- C9 witness: the empty line fails to parse and leaves the initial state
untouched. -/
theorem C9_failed_tick_mutates_nothing_witness :
    parse_telemetry_human "" = none ∧
    (tick initState (some "")).position = initState.position ∧
    (tick initState (some "")).store.frame_count = initState.store.frame_count := by
  have h : parse_telemetry_human "" = none := by decide
  have hc := C9_failed_tick_mutates_nothing.2 initState "" h
  exact ⟨h, hc.1, hc.2.2.2.2.2.2.2⟩

/-- C10: the parser is total: every input string either yields a frame
(with all eleven fields populated) or the failure value, and every
exception raised inside the parsing loop (index or float conversion) is
caught and converted to the failure value. -/
theorem C10_parse_total :
    (∀ line : String,
      (∃ f : Frame, parse_telemetry_human line = some f) ∨
        parse_telemetry_human line = none) ∧
    (∀ (line : String) (e : PyExc),
      pyData (pySplit '|' line.data) 0 = .error e →
        parse_telemetry_human line = none) := by
  refine ⟨fun line => ?_, fun line e h => ?_⟩
  · cases hp : parse_telemetry_human line with
    | none => exact Or.inr rfl
    | some f => exact Or.inl ⟨f, rfl⟩
  · simp [parse_telemetry_human, h]

/-- C10 witness: a twelve-field line raises `IndexError` inside the loop
(index 11 is past the end of `TELEMETRY_KEYS`), and the parser returns the
failure value rather than letting it escape. -/
theorem C10_parse_total_witness :
    pyData (pySplit '|' ("0|1|2|3|4|5|6|7|8|9|M|X" : String).data) 0 =
      .error .indexError ∧
    parse_telemetry_human "0|1|2|3|4|5|6|7|8|9|M|X" = none := by
  have h : pyData (pySplit '|' ("0|1|2|3|4|5|6|7|8|9|M|X" : String).data) 0 =
      .error .indexError := by decide
  exact ⟨h, C10_parse_total.2 "0|1|2|3|4|5|6|7|8|9|M|X" .indexError h⟩

end Mpu6050
